import Mathlib

/-!
Formal model of the Elev8 flight controller main thread
(`src/Firmware-C/elev8-main.cpp`), as a shallow embedding in Lean 4.

Machine integers are modelled as unbounded `Int` with explicit reduction
where the C code can wrap: 16-bit `short` variables (`FlightEnableStep`,
`CompassConfigStep`, `UsbPulse`, `XBeePulse`, `BatteryVolts`) go through
`i16`.  C `/` (truncating division) is `Int.tdiv`; C arithmetic right
shift `>>` is `Int.fdiv` by a power of two; counters that only ever hold
small non-negative values (`counter`, flight mode, flags) are `Nat`.

External subsystems (sensor cog, IMU cog, servo driver, serial ports,
beeper) are modelled as inputs in an `Env` record and as emitted action
lists; the main thread's own variables form the `FCState` record.
-/

/-- Reduction of an `Int` to the value a C 16-bit signed `short` would hold. -/
def i16 (x : Int) : Int := (x + 32768) % 65536 - 32768

/-- Arithmetic shift right by `n` bits (C `>> n` on a signed int, which the
target compiler implements as an arithmetic shift, i.e. floor division). -/
def asr (x : Int) (n : Nat) : Int := Int.fdiv x (2 ^ n)

/-- The `clamp` helper of elev8-main.cpp (lines 402-406): clamp `v` into
`[mn, mx]`, applying the lower bound first. -/
def clamp (v mn mx : Int) : Int :=
  let v1 := if v < mn then mn else v
  if v1 > mx then mx else v1

/-- The `abs` helper of elev8-main.cpp (lines 408-411). -/
def cabs (v : Int) : Int := if v < 0 then -v else v

/-! ### Constants

The project header files (`elev8-main.h`, `constants.h`, `pins.h`) are not
part of the given sources; the constants below are modelled from the spec. -/

/-- Modelled from the spec: display mode `MODE_None` (elev8-main.h is not in
src/; the spec command table gives `0x00..MotorTest` as display-mode bytes,
so the modes are small consecutive codes starting at 0). -/
def MODE_None : Nat := 0

/-- Modelled from the spec: display mode for the radio test stream. -/
def MODE_RadioTest : Nat := 1

/-- Modelled from the spec: display mode `MODE_SensorTest`. -/
def MODE_SensorTest : Nat := 2

/-- Modelled from the spec: display mode `MODE_MotorTest`, the largest
display-mode command byte (below the 0x08 motor-nudge range). -/
def MODE_MotorTest : Nat := 3

/-- Flight mode `FlightMode_Assisted` (index 0 of `LEDColorTable`, whose
comment order is Assisted, Automatic, Manual, CompCalib). -/
def FlightMode_Assisted : Nat := 0

/-- Flight mode `FlightMode_Automatic` (index 1 of `LEDColorTable`). -/
def FlightMode_Automatic : Nat := 1

/-- Flight mode `FlightMode_Manual` (index 2 of `LEDColorTable`). -/
def FlightMode_Manual : Nat := 2

/-- Flight mode `FlightMode_CalibrateCompass` (index 3 of `LEDColorTable`). -/
def FlightMode_CalibrateCompass : Nat := 3

/-- Modelled from the spec: composite RGB word for red (pins.h missing). -/
def LED_Red : Nat := 0xFF0000

/-- Modelled from the spec: composite RGB word for green. -/
def LED_Green : Nat := 0x00FF00

/-- Modelled from the spec: composite RGB word for blue. -/
def LED_Blue : Nat := 0x0000FF

/-- Modelled from the spec: yellow = red plus green. -/
def LED_Yellow : Nat := LED_Red ||| LED_Green

/-- Modelled from the spec: cyan = green plus blue. -/
def LED_Cyan : Nat := LED_Green ||| LED_Blue

/-- Modelled from the spec: violet = red plus blue. -/
def LED_Violet : Nat := LED_Red ||| LED_Blue

/-- Modelled from the spec: white = all channels on. -/
def LED_White : Nat := 0xFFFFFF

/-- Modelled from the spec: half-intensity mask applied to a color word. -/
def LED_Half : Nat := 0x7F7F7F

/-- `LEDBrightShift` constant (elev8-main.cpp line 104): zero, full brightness. -/
def LEDBrightShift : Nat := 0

/-- `LEDSingleMask` (line 105): `0xFF - ((1 << LEDBrightShift) - 1)`. -/
def LEDSingleMask : Nat := 0xFF - ((1 <<< LEDBrightShift) - 1)

/-- `LEDBrightMask` (line 106): the single mask replicated over three bytes. -/
def LEDBrightMask : Nat := LEDSingleMask ||| (LEDSingleMask <<< 8) ||| (LEDSingleMask <<< 16)

/-- `AltiThrottleDeadband` (elev8-main.cpp line 33). -/
def AltiThrottleDeadband : Int := 100

/-- `AccelAssistZFactor` (line 58): initialized to 32 and never reassigned. -/
def AccelAssistZFactor : Int := 32

/-- Modelled from the spec: the main loop update rate (250 Hz), from
constants.h which is not in src/. -/
def Const_UpdateRate : Int := 250

/-- `MinTries` of `FindGyroZero` (elev8-main.cpp line 427). -/
def MinTries : Nat := 2

/-- `MaxTries` of `FindGyroZero` (elev8-main.cpp line 427). -/
def MaxTries : Nat := 64

/-! ### Data model -/

/-- One three-axis gyro reading, as returned by `Sensors_In(1..3)`. -/
structure GyroSample where
  x : Int
  y : Int
  z : Int
deriving DecidableEq, Inhabited

/-- The per-axis gyro zero triple `(GyroZX, GyroZY, GyroZZ)`. -/
structure GyroZero where
  zx : Int
  zy : Int
  zz : Int
deriving DecidableEq, Inhabited

/-- User preferences (the fields of `PREFS` read or written by
elev8-main.cpp; prefs.h itself is not in src/, so the record layout is
modelled from the spec: a fixed record of integer fields with a trailing
checksum, with the channel calibration arrays holding eight entries). -/
structure Prefs where
  minThrottle : Int
  minThrottleArmed : Int
  maxThrottle : Int
  centerThrottle : Int
  armDelay : Int
  disarmDelay : Int
  thrustCorrectionScale : Int
  disableMotors : Int
  useBattMon : Int
  lowVoltageAlarm : Int
  lowVoltageAlarmThreshold : Int
  voltageOffset : Int
  accelCorrectionFilter : Int
  channelScale : List Int
  channelCenter : List Int
  checksum : Int
deriving DecidableEq, Inhabited

/-- The decoded radio frame (named channel aliases of `RADIO`). -/
structure Radio where
  thro : Int
  aile : Int
  elev : Int
  rudd : Int
  gear : Int
  aux1 : Int
  aux2 : Int
  aux3 : Int
deriving DecidableEq, Inhabited

/-- Per-tick inputs from the external cogs (sensor readings, IMU query
results, battery sampling) consumed by the main thread. -/
structure Env where
  gyroX : Int
  gyroY : Int
  gyroZ : Int
  accelZ : Int
  thrustFactor : Int
  oneG : Int
  pitchDiff : Int
  rollDiff : Int
  yawDiff : Int
  altiEstNew : Int
  ascentEstNew : Int
  batteryReading : Int
  armSamples : Nat → Nat → GyroSample
deriving Inhabited

/-- Integer PID controller state.  Modelled from the spec (section 4.1):
intpid.cpp is not in src/.  `calculate` computes
`error = setpoint - measured`; the P input is `error` clamped to
`±piMax`; the integral accumulates the clamped error when the integrate
gate is on and is clamped to `±maxIntegral`; the D term is the change in
`measured` through a single-pole IIR low-pass with coefficient
`derivFilter/256`; the output is `(P*ep + I*integral + D*deriv) >> precision`
clamped to `±maxOutput`. -/
structure IntPID where
  pGain : Int
  iGain : Int
  dGain : Int
  precision : Nat
  maxOutput : Int
  piMax : Int
  maxIntegral : Int
  derivFilter : Int
  integral : Int
  lastMeasured : Int
  filteredDeriv : Int
deriving DecidableEq, Inhabited

/-- Result of one PID update: the new controller state and its output. -/
structure PIDOut where
  pid : IntPID
  out : Int
deriving DecidableEq, Inhabited

/-- Modelled from the spec: `IntPID::Calculate` (section 4.1). -/
def IntPID.calculate (pid : IntPID) (setpoint measured : Int) (integrate : Bool) : PIDOut :=
  let err := setpoint - measured
  let ep := clamp err (-pid.piMax) pid.piMax
  let integral :=
    if integrate then clamp (pid.integral + ep) (-pid.maxIntegral) pid.maxIntegral
    else pid.integral
  let raw := measured - pid.lastMeasured
  let fd := pid.filteredDeriv + Int.tdiv ((raw - pid.filteredDeriv) * pid.derivFilter) 256
  let out := clamp (asr (pid.pGain * ep + pid.iGain * integral + pid.dGain * fd) pid.precision)
               (-pid.maxOutput) pid.maxOutput
  ⟨{ pid with integral := integral, lastMeasured := measured, filteredDeriv := fd }, out⟩

/-- Modelled from the spec: `IntPID::ResetIntegralError` zeroes the
integral accumulator. -/
def IntPID.resetIntegralError (pid : IntPID) : IntPID := { pid with integral := 0 }

/-- The four motor output words; index order in the `Motor` array is
`OUT_FL = 0`, `OUT_FR = 1`, `OUT_BR = 2`, `OUT_BL = 3` (from the
`MotorPin` table and the servo dispatch in lines 687-693). -/
structure MotorSet where
  fl : Int
  fr : Int
  br : Int
  bl : Int
deriving DecidableEq, Inhabited

/-- The main thread's flight-control state (the static variables of
elev8-main.cpp that the flight path reads or writes). -/
structure FCState where
  flightEnabled : Nat
  flightMode : Nat
  isHolding : Nat
  flightEnableStep : Int
  compassConfigStep : Int
  desiredAltitude : Int
  desiredAscentRate : Int
  altiEst : Int
  ascentEst : Int
  gyroZX : Int
  gyroZY : Int
  gyroZZ : Int
  gyroRoll : Int
  gyroPitch : Int
  gyroYaw : Int
  gyroRPFilter : Int
  gyroYawFilter : Int
  accelZSmooth : Int
  rollDifference : Int
  pitchDifference : Int
  yawDifference : Int
  rollPID : IntPID
  pitchPID : IntPID
  yawPID : IntPID
  altPID : IntPID
  ascentPID : IntPID
  motorFL : Int
  motorFR : Int
  motorBR : Int
  motorBL : Int
  ledModeColor : Nat
  counter : Nat
  batteryVolts : Int
  batteryMonitorDelay : Int
deriving DecidableEq, Inhabited

/-! ### FindGyroZero (elev8-main.cpp lines 418-491) -/

/-- Min, max and running sum of one axis over one sampling window:
reading 0 is the initial `Sensors_In` reading used to seed min and max
(line 435), readings 1..64 are the 64 loop samples that also feed the sum. -/
structure AxisStats where
  vmin : Int
  vmax : Int
  sum : Int
deriving DecidableEq, Inhabited

/-- Fold one sampling window (lines 433-450) for a single axis. -/
def axisStats (f : Nat → Int) : AxisStats :=
  (List.range 64).foldl
    (fun acc k =>
      let v := f (k + 1)
      ⟨min acc.vmin v, max acc.vmax v, acc.sum + v⟩)
    ⟨f 0, f 0, 0⟩

/-- Mean of a window: `avg[a] /= 64` (line 456, C truncating division). -/
def axisMean (a : AxisStats) : Int := Int.tdiv a.sum 64

/-- Per-axis variation: `(vmax + vmin)/2 - avg` (line 464). -/
def axisVar (a : AxisStats) : Int := Int.tdiv (a.vmax + a.vmin) 2 - axisMean a

/-- One iteration of the `FindGyroZero` sampling loop: the per-axis means
and the maximal absolute variation across the three axes (lines 432-467).
`samp k` is the `k`-th reading of the window (0 = seed reading). -/
def gyroIter (samp : Nat → GyroSample) : (Int × Int × Int) × Int :=
  let sx := axisStats (fun k => (samp k).x)
  let sy := axisStats (fun k => (samp k).y)
  let sz := axisStats (fun k => (samp k).z)
  let maxVar := max (max (max 0 (cabs (axisVar sx))) (cabs (axisVar sy))) (cabs (axisVar sz))
  ((axisMean sx, axisMean sy, axisMean sz), maxVar)

/-- Result of `FindGyroZero`: the published per-axis means, the variance of
the best window, and the number of loop iterations executed. -/
structure GZResult where
  best : Int × Int × Int
  bestVar : Int
  tries : Nat
deriving DecidableEq, Inhabited

/-- The do-while loop of `FindGyroZero` (lines 432-484), with fuel
`MaxTries - tc` making the bounded iteration structurally recursive.
`samples t` is the reading stream of iteration `t`. -/
def fgzAux (samples : Nat → Nat → GyroSample) : Nat → Nat → Int × Int × Int → Int → GZResult
  | 0, tc, best, bestvar => ⟨best, bestvar, tc⟩
  | fuel + 1, tc, best, bestvar =>
    let it := gyroIter (samples tc)
    let keep : Prop := bestvar = -1 ∨ it.2 < bestvar
    let best' := if keep then it.1 else best
    let bestvar' := if keep then it.2 else bestvar
    let tc' := tc + 1
    if tc' < MaxTries ∧ (bestvar' > 2 ∨ tc' < MinTries) then
      fgzAux samples fuel tc' best' bestvar'
    else
      ⟨best', bestvar', tc'⟩

/-- `FindGyroZero` (lines 418-491): iterate sampling windows until the
variance settles, keeping the best window; `bestvar` starts at -1. -/
def findGyroZero (samples : Nat → Nat → GyroSample) : GZResult :=
  fgzAux samples MaxTries 0 (0, 0, 0) (-1)

/-- Variance of the window of iteration `i`. -/
def gyroVar (samples : Nat → Nat → GyroSample) (i : Nat) : Int :=
  (gyroIter (samples i)).2

/-- Per-axis means of the window of iteration `i`. -/
def gyroMean (samples : Nat → Nat → GyroSample) (i : Nat) : Int × Int × Int :=
  (gyroIter (samples i)).1

/-! ### LED status (lines 718-762) -/

/-- `LEDColorTable` (lines 718-723). -/
def ledColorTable : Nat → Nat
  | 0 => LED_Cyan
  | 1 => LED_White
  | 2 => LED_Yellow
  | _ => LED_Violet

/-- `LEDArmDisarm` (lines 725-728). -/
def ledArmDisarm : Nat → Nat
  | 0 => LED_Green
  | _ => LED_Red

/-- The `LowBatt` flag computed at the top of `UpdateFlightLEDColor`
(lines 733-739). -/
def lowBattOf (p : Prefs) (s : FCState) : Nat :=
  if p.useBattMon ≠ 0 ∧ s.batteryVolts < p.lowVoltageAlarmThreshold ∧ s.batteryVolts > 200
  then 1 else 0

/-- The color selected by `UpdateFlightLEDColor` (lines 731-762). -/
def updateFlightLEDColorVal (p : Prefs) (s : FCState) : Nat :=
  if lowBattOf p s = 1 then
    let index := (s.counter >>> 3) &&& 7
    if index < 4 then
      (ledColorTable (s.flightMode &&& 3) &&& LEDBrightMask) >>> LEDBrightShift
    else
      ((LED_Red ||| (LED_Yellow &&& LED_Half)) &&& LEDBrightMask) >>> LEDBrightShift
  else
    let index := (s.counter >>> 3) &&& 15
    if index < 3 ∨ s.isHolding ≠ 0 then
      (ledColorTable (s.flightMode &&& 3) &&& LEDBrightMask) >>> LEDBrightShift
    else
      (ledArmDisarm (s.flightEnabled &&& 1) &&& LEDBrightMask) >>> LEDBrightShift

/-- `UpdateFlightLEDColor` as a state update of `LEDModeColor`. -/
def updateFlightLEDColorS (p : Prefs) (s : FCState) : FCState :=
  { s with ledModeColor := updateFlightLEDColorVal p s }

/-! ### Flight-mode arbitration (main, lines 187-214) -/

/-- IMU control-reset requests issued to the quaternion cog. -/
inductive ImuAct where
  | resetOrientation
  | resetYaw
deriving DecidableEq, Inhabited

/-- The new flight mode selected from the gear channel (lines 189-194). -/
def selectFlightMode (gear : Int) : Nat :=
  if gear > 512 then FlightMode_Assisted
  else if gear < -512 then FlightMode_Manual
  else FlightMode_Automatic

/-- The mode-change block of `main` (lines 187-214): recompute the flight
mode from the gear switch and, on a transition, reset the desired
orientation or yaw, capture the hold altitude when entering Automatic,
and drop altitude hold. -/
def modeArbitrate (r : Radio) (s : FCState) : FCState × List ImuAct :=
  let nm := selectFlightMode r.gear
  if nm ≠ s.flightMode then
    let acts := if nm = FlightMode_Manual then [ImuAct.resetOrientation] else [ImuAct.resetYaw]
    let s1 := if nm = FlightMode_Automatic then { s with desiredAltitude := s.altiEst } else s
    ({ s1 with isHolding := 0, flightMode := nm }, acts)
  else (s, [])

/-! ### UpdateFlightLoop (lines 494-715) -/

/-- The arming stick gesture (lines 506-508): throttle and elevator low,
rudder right, aileron left. -/
def armGesture (r : Radio) : Prop :=
  r.thro < -750 ∧ r.elev < -750 ∧ r.rudd > 750 ∧ r.aile < -750

instance (r : Radio) : Decidable (armGesture r) := by
  unfold armGesture; exact inferInstance

/-- The disarming stick gesture (line 546): throttle and elevator low,
rudder left, aileron right. -/
def disarmGesture (r : Radio) : Prop :=
  r.rudd < -750 ∧ r.aile > 750 ∧ r.thro < -750 ∧ r.elev < -750

instance (r : Radio) : Decidable (disarmGesture r) := by
  unfold disarmGesture; exact inferInstance

/-- `ArmFlightMode` (lines 765-780): enable flight, clear the gesture
counters, re-run gyro zeroing on the environment's sample stream, and
capture the current altitude estimate as the hold target. -/
def armFlightMode (e : Env) (s : FCState) : FCState :=
  let z := (findGyroZero e.armSamples).best
  { s with flightEnabled := 1, flightEnableStep := 0, compassConfigStep := 0,
           gyroZX := z.1, gyroZY := z.2.1, gyroZZ := z.2.2,
           desiredAltitude := s.altiEst }

/-- `DisarmFlightMode` (lines 782-796): write `MinThrottle` to all four
motor outputs and disable flight. -/
def disarmFlightMode (p : Prefs) (s : FCState) : FCState :=
  { s with motorFL := p.minThrottle, motorFR := p.minThrottle,
           motorBR := p.minThrottle, motorBL := p.minThrottle,
           flightEnabled := 0, flightEnableStep := 0, compassConfigStep := 0 }

/-- The X-configuration mixer (lines 673-676). -/
def mixMotors (throOut pitchOut rollOut yawOut throMix : Int) : MotorSet :=
  { fl := throOut + asr ((pitchOut + rollOut - yawOut) * throMix) 7
    fr := throOut + asr ((pitchOut - rollOut + yawOut) * throMix) 7
    br := throOut + asr ((-pitchOut - rollOut - yawOut) * throMix) 7
    bl := throOut + asr ((-pitchOut + rollOut + yawOut) * throMix) 7 }

/-- The low-throttle / max clamp applied to all four motors (lines 682-685). -/
def clampMotors (p : Prefs) (m : MotorSet) : MotorSet :=
  { fl := clamp m.fl p.minThrottleArmed p.maxThrottle
    fr := clamp m.fr p.minThrottleArmed p.maxThrottle
    br := clamp m.br p.minThrottleArmed p.maxThrottle
    bl := clamp m.bl p.minThrottleArmed p.maxThrottle }

/-- Result of the Automatic-mode altitude block: updated state, the new
`ThroOut`, and the deadband-adjusted stick throttle. -/
structure AutoOut where
  st : FCState
  throOut : Int
  adjusted : Int

/-- The `FlightMode_Automatic` altitude/ascent cascade (lines 605-650):
outside the `±AltiThrottleDeadband` stick deadband the pilot commands an
ascent rate directly and altitude hold is dropped; inside it, hold is
(re-)entered by capturing the current altitude and resetting the altitude
PID integrator, and the altitude PID commands the ascent rate.  The ascent
PID gains are retuned from Aux2/Aux3 and its output plus the adjusted stick
recenters `ThroOut` around `CenterThrottle`. -/
def autoBlock (p : Prefs) (r : Radio) (doIntegrate : Bool) (s : FCState) : AutoOut :=
  let outer :=
    if cabs r.thro > AltiThrottleDeadband then
      let adj := if r.thro > 0 then r.thro - AltiThrottleDeadband else r.thro + AltiThrottleDeadband
      let rate := Int.tdiv (adj * 6000) (1024 - AltiThrottleDeadband)
      ({ s with isHolding := 0, desiredAscentRate := rate }, adj)
    else
      let s1 :=
        if s.isHolding = 0 then
          { s with isHolding := 1, desiredAltitude := s.altiEst,
                   altPID := s.altPID.resetIntegralError }
        else s
      let ar := s1.altPID.calculate s1.desiredAltitude s1.altiEst doIntegrate
      ({ s1 with altPID := ar.pid, desiredAscentRate := ar.out }, 0)
  let s2 := outer.1
  let adjusted := outer.2
  let t1 := 1024 + r.aux2
  let t2 := 1024 + r.aux3
  let ascent0 := { s2.ascentPID with pGain := t1, iGain := t2 * 250 }
  let ascentRes := ascent0.calculate s2.desiredAscentRate s2.ascentEst doIntegrate
  ⟨{ s2 with ascentPID := ascentRes.pid },
   p.centerThrottle + ascentRes.out + adjusted,
   adjusted⟩

/-- The armed control path of `UpdateFlightLoop` (lines 562-693): filter
body rates, gate the integrators on throttle, run the attitude PIDs, shape
the throttle (Automatic cascade, accelerometer assist, tilt-compensated
thrust), mix and clamp the four motors. -/
def armedCompute (p : Prefs) (e : Env) (r : Radio) (s : FCState) : FCState :=
  let gr := e.gyroY - s.gyroZY
  let gp := -(e.gyroX - s.gyroZX)
  let gy := -(e.gyroZ - s.gyroZZ)
  let gyroRoll := s.gyroRoll + asr ((gr - s.gyroRoll) * s.gyroRPFilter) 8
  let gyroPitch := s.gyroPitch + asr ((gp - s.gyroPitch) * s.gyroRPFilter) 8
  let gyroYaw := s.gyroYaw + asr ((gy - s.gyroYaw) * s.gyroYawFilter) 8
  let doIntegrate := decide (¬ r.thro < -800)
  let rollRes := s.rollPID.calculate s.rollDifference gyroRoll doIntegrate
  let pitchRes := s.pitchPID.calculate s.pitchDifference gyroPitch doIntegrate
  let yawRes := s.yawPID.calculate s.yawDifference gyroYaw doIntegrate
  let throMix := clamp (asr (r.thro + 1024) 2) 0 64
  let throOut0 := r.thro * 4 + 12000
  let auto :=
    if s.flightMode ≠ FlightMode_Manual then
      let a :=
        if s.flightMode = FlightMode_Automatic then
          let ao := autoBlock p r doIntegrate s
          (ao.st, ao.throOut)
        else (s, throOut0)
      let t1 :=
        if AccelAssistZFactor > 0 ∧ cabs r.aile < 300 ∧ cabs r.elev < 300 ∧ throMix > 32 then
          a.2 - Int.tdiv ((s.accelZSmooth - e.oneG) * AccelAssistZFactor) 64
        else a.2
      let t2 :=
        if p.thrustCorrectionScale > 0 then
          let tm := clamp (256 + Int.tdiv ((e.thrustFactor - 256) * p.thrustCorrectionScale) 256) 256 384
          p.minThrottle + asr ((t1 - p.minThrottle) * tm) 8
        else t1
      (a.1, t2)
    else (s, throOut0)
  let s2 := auto.1
  let m := clampMotors p (mixMotors auto.2 pitchRes.out rollRes.out yawRes.out throMix)
  { s2 with gyroRoll := gyroRoll, gyroPitch := gyroPitch, gyroYaw := gyroYaw,
            rollPID := rollRes.pid, pitchPID := pitchRes.pid, yawPID := yawRes.pid,
            motorFL := m.fl, motorFR := m.fr, motorBR := m.br, motorBL := m.bl }

/-- `UpdateFlightLoop` (lines 494-715): update the status LED color, then
run the disarmed-side gesture recognizers (arming and compass-calibration
holds) or the armed-side disarm recognizer and control path. -/
def updateFlightLoop (p : Prefs) (e : Env) (r : Radio) (s0 : FCState) : FCState :=
  let s := updateFlightLEDColorS p s0
  if s.flightEnabled = 0 then
    if r.thro < -750 ∧ r.elev < -750 then
      if r.rudd > 750 ∧ r.aile < -750 then
        let step := i16 (s.flightEnableStep + 1)
        let s1 := { s with flightEnableStep := step, compassConfigStep := 0,
                           ledModeColor := LED_Yellow &&& LED_Half }
        if step ≥ p.armDelay then armFlightMode e s1 else s1
      else if r.rudd > 750 ∧ r.aile > 750 then
        let cstep := i16 (s.compassConfigStep + 1)
        { s with compassConfigStep := cstep, flightEnableStep := 0,
                 ledModeColor := (LED_Blue ||| LED_Red) &&& LED_Half }
      else
        { s with compassConfigStep := 0, flightEnableStep := 0 }
    else
      { s with compassConfigStep := 0, flightEnableStep := 0 }
  else
    if disarmGesture r then
      let step := i16 (s.flightEnableStep + 1)
      let s1 := { s with flightEnableStep := step, ledModeColor := LED_Yellow &&& LED_Half }
      if step ≥ p.disarmDelay then disarmFlightMode p s1
      else armedCompute p e r s1
    else
      armedCompute p e r { s with flightEnableStep := 0 }

/-! ### Battery monitor and the main loop body (lines 146-265) -/

/-- The battery-monitor block of `main` (lines 221-240): during the startup
delay count down and force the LED blue; afterwards run the charge/discharge
sampling cycle, latching a new voltage on phase 15. -/
def batteryBlock (p : Prefs) (e : Env) (s : FCState) : FCState :=
  if p.useBattMon ≠ 0 then
    if s.batteryMonitorDelay > 0 then
      { s with batteryMonitorDelay := s.batteryMonitorDelay - 1, ledModeColor := LED_Blue }
    else if s.counter &&& 15 = 15 then
      { s with batteryVolts := i16 (e.batteryReading + p.voltageOffset) }
    else s
  else s

/-- One iteration of the `while(1)` loop of `main` (lines 146-265),
restricted to the flight-control path: smooth AccelZ, arbitrate the flight
mode and run `UpdateFlightLoop` (unless compass calibration is active, in
which case `DoCompassCalibrate` is an empty placeholder), run the battery
monitor, emit the LED color, then refresh the IMU-derived estimates and
advance the tick counter.  Serial I/O is modelled separately. -/
def mainTick (p : Prefs) (e : Env) (r : Radio) (s0 : FCState) : FCState :=
  let s := { s0 with accelZSmooth :=
               s0.accelZSmooth + Int.tdiv ((e.accelZ - s0.accelZSmooth) * p.accelCorrectionFilter) 256 }
  let s1 :=
    if s.flightMode = FlightMode_CalibrateCompass then s
    else updateFlightLoop p e r (modeArbitrate r s).1
  let s2 := batteryBlock p e s1
  let s3 := { s2 with pitchDifference := e.pitchDiff, rollDifference := e.rollDiff,
                      yawDifference := -e.yawDiff,
                      altiEst := e.altiEstNew, ascentEst := e.ascentEstNew }
  { s3 with counter := s3.counter + 1 }

/-- The color handed to `All_LED` at line 242 of the tick: the value of
`LEDModeColor` after `UpdateFlightLoop` and the battery-monitor block. -/
def emittedLEDColor (p : Prefs) (e : Env) (r : Radio) (s : FCState) : Nat :=
  (mainTick p e r s).ledModeColor

/-- Iterated `updateFlightLoop` over a list of per-tick inputs. -/
def flRun (p : Prefs) (s : FCState) (ers : List (Env × Radio)) : FCState :=
  ers.foldl (fun s er => updateFlightLoop p er.1 er.2 s) s

/-! ### Debug / telemetry link (lines 809-1102) -/

/-- Side effects of `CheckDebugInput` on external subsystems: sensor-cog
calibration commands, beeper patterns, preference persistence, packet
replies. -/
inductive DbgAct where
  | tempZeroDrift
  | resetDrift
  | tempZeroAccel
  | resetAccel
  | beep
  | beep2
  | beep3
  | beepOff
  | applyPrefs
  | sendPrefs
  | prefsSave
  | pingBack
deriving DecidableEq, Inhabited

/-- The serial-side state of the main thread: display mode, motor-nudge
request, the two heartbeat countdowns and the in-memory preferences. -/
structure DebugState where
  mode : Nat
  nudgeMotor : Int
  usbPulse : Int
  xbeePulse : Int
  prefs : Prefs
deriving DecidableEq, Inhabited

/-- `CheckDebugInput` (lines 809-932) for one received command byte `c`
(0..255) on port `port` (0 = USB, 1 = XBee).  `csum` models
`Prefs_CalculateChecksum` (prefs.cpp is not in src/; per the spec it is a
checksum over the record's bytes preceding the stored checksum field),
`uploaded` is the record assembled from the `sizeof(Prefs)` bytes read for
command 0x19, `confirm` the confirmation byte read for 0x1A, `loadOk` the
result of the `Prefs_Load` verification reload, and `defaults` the record
written by `Prefs_SetDefaults`. -/
def checkDebugInput (csum : Prefs → Int) (defaults : Prefs) (port : Nat) (c : Nat)
    (uploaded : Prefs) (confirm : Nat) (loadOk : Bool) (s : DebugState) :
    DebugState × List DbgAct :=
  if c ≤ MODE_MotorTest then
    (if port = 0 then { s with mode := c, usbPulse := 500, xbeePulse := 0 }
     else { s with mode := c, usbPulse := 0, xbeePulse := 500 }, [])
  else if port = 0 ∧ c &&& 0xF8 = 0x08 then
    ({ s with nudgeMotor := ((c &&& 7 : Nat) : Int) }, [])
  else
    let r1 : DebugState × List DbgAct :=
      if c &&& 0xF8 = 0x10 then
        if s.mode = MODE_SensorTest then
          if c = 0x10 then (s, [DbgAct.tempZeroDrift])
          else if c = 0x11 then (s, [DbgAct.resetDrift])
          else if c = 0x13 then
            ({ s with prefs := { s.prefs with channelScale := List.replicate 8 1024,
                                              channelCenter := List.replicate 8 0 } },
             [DbgAct.beep2])
          else if c = 0x14 then (s, [DbgAct.tempZeroAccel])
          else if c = 0x15 then (s, [DbgAct.resetAccel])
          else (s, [])
        else (s, [])
      else (s, [])
    let s1 := r1.1
    let r2 : DebugState × List DbgAct :=
      if c &&& 0xF8 = 0x18 then
        if c = 0x18 then
          ({ s1 with prefs := { s1.prefs with checksum := csum s1.prefs } }, [DbgAct.sendPrefs])
        else if c = 0x19 then
          if csum uploaded = uploaded.checksum then
            ({ s1 with prefs := uploaded },
             [DbgAct.prefsSave] ++
               (if loadOk then [DbgAct.beepOff, DbgAct.beep2, DbgAct.applyPrefs]
                else [DbgAct.beep]))
          else (s1, [DbgAct.beep])
        else if c = 0x1A then
          if confirm = 0x1A then ({ s1 with prefs := defaults }, [DbgAct.prefsSave, DbgAct.beep3])
          else (s1, [])
        else (s1, [])
      else (s1, [])
    let acts3 := if c = 0xFF then [DbgAct.pingBack] else []
    (r2.1, r1.2 ++ r2.2 ++ acts3)

/-- The pulse-countdown prologue of `DoDebugModeOutput` (lines 939-954),
transcribed exactly as the source has it: note that the XBee branch
decrements `UsbPulse`, not `XBeePulse`. -/
def debugPulseStep (s : DebugState) : DebugState :=
  if s.usbPulse > 0 then
    let u := i16 (s.usbPulse - 1)
    if u = 0 then { s with usbPulse := u, mode := MODE_None }
    else { s with usbPulse := u }
  else if s.xbeePulse > 0 then
    let u := i16 (s.usbPulse - 1)
    if u = 0 then { s with usbPulse := u, mode := MODE_None }
    else { s with usbPulse := u }
  else s

/-! ### Initialization (Initialize, lines 269-380, and main, lines 122-144) -/

/-- An `IntPID` directly after `Init` with all accumulators zero;
the constructor arguments follow `IntPID::Init` and the setter calls. -/
def pidInit (p i d : Int) (q : Nat) (maxOut piMax maxInt dFilter : Int) : IntPID :=
  { pGain := p, iGain := i, dGain := d, precision := q, maxOutput := maxOut,
    piMax := piMax, maxIntegral := maxInt, derivFilter := dFilter,
    integral := 0, lastMeasured := 0, filteredDeriv := 0 }

/-- `RollPID` configuration (lines 329-338). -/
def rollPIDInit : IntPID := pidInit 8000 0 (20000 * Const_UpdateRate) 12 3000 100 1900 128

/-- `PitchPID` configuration (lines 341-346). -/
def pitchPIDInit : IntPID := pidInit 8000 0 (20000 * Const_UpdateRate) 12 3000 100 1900 128

/-- `YawPID` configuration (lines 349-354). -/
def yawPIDInit : IntPID :=
  pidInit 15000 (200 * Const_UpdateRate) (10000 * Const_UpdateRate) 12 5000 100 2000 192

/-- `AltPID` configuration (lines 363-367). -/
def altPIDInit : IntPID := pidInit 600 (500 * Const_UpdateRate) 0 14 5000 1000 4000 0

/-- `AscentPID` configuration (lines 372-376). -/
def ascentPIDInit : IntPID := pidInit 1100 0 0 12 4000 500 2000 0

/-- The flight-control state after `Initialize()` and the pre-loop part of
`main` (motors forced to `MinThrottle`, lines 139-143); C static variables
that are never explicitly initialized start at zero. -/
def initState (p : Prefs) (initialAlt : Int) : FCState :=
  { flightEnabled := 0, flightMode := FlightMode_Assisted, isHolding := 0,
    flightEnableStep := 0, compassConfigStep := 0,
    desiredAltitude := 0, desiredAscentRate := 0,
    altiEst := initialAlt, ascentEst := 0,
    gyroZX := 0, gyroZY := 0, gyroZZ := 0,
    gyroRoll := 0, gyroPitch := 0, gyroYaw := 0,
    gyroRPFilter := 192, gyroYawFilter := 192,
    accelZSmooth := 0,
    rollDifference := 0, pitchDifference := 0, yawDifference := 0,
    rollPID := rollPIDInit, pitchPID := pitchPIDInit, yawPID := yawPIDInit,
    altPID := altPIDInit, ascentPID := ascentPIDInit,
    motorFL := p.minThrottle, motorFR := p.minThrottle,
    motorBR := p.minThrottle, motorBL := p.minThrottle,
    ledModeColor := 0, counter := 0, batteryVolts := 0,
    batteryMonitorDelay := (Const_UpdateRate * 2) % 65536 / 16 * 16 }

/-! ### Concrete sample inputs (used by the witness theorems) -/

/-- A representative preferences record (throttle range per spec section 6,
a short two-tick arm delay to keep sample traces small). -/
def wPrefs : Prefs :=
  { minThrottle := 8000, minThrottleArmed := 8500, maxThrottle := 16000,
    centerThrottle := 12000, armDelay := 2, disarmDelay := 250,
    thrustCorrectionScale := 0, disableMotors := 0, useBattMon := 0,
    lowVoltageAlarm := 0, lowVoltageAlarmThreshold := 0, voltageOffset := 0,
    accelCorrectionFilter := 16, channelScale := List.replicate 8 1024,
    channelCenter := List.replicate 8 0, checksum := 0 }

/-- A quiet environment: zero gyro readings, neutral thrust factor, still
gyro-zero sample stream. -/
def wEnv : Env :=
  { gyroX := 0, gyroY := 0, gyroZ := 0, accelZ := 0, thrustFactor := 256,
    oneG := 0, pitchDiff := 0, rollDiff := 0, yawDiff := 0,
    altiEstNew := 0, ascentEstNew := 0, batteryReading := 0,
    armSamples := fun _ _ => ⟨0, 0, 0⟩ }

/-- Sticks centered, gear high (Assisted). -/
def wRadioCenter : Radio :=
  { thro := 0, aile := 0, elev := 0, rudd := 0, gear := 600,
    aux1 := 0, aux2 := 0, aux3 := 0 }

/-- The arming gesture held, gear high (Assisted). -/
def wRadioArm : Radio :=
  { thro := -800, aile := -800, elev := -800, rudd := 800, gear := 600,
    aux1 := 0, aux2 := 0, aux3 := 0 }

/-- The freshly initialized (disarmed) state. -/
def wInit : FCState := initState wPrefs 0

/-- A second disarmed state that differs from `wInit` only in fields the
LED selector is claimed not to read. -/
def wInitB : FCState :=
  { wInit with desiredAltitude := 5, batteryVolts := 100, motorFL := 9000,
               accelZSmooth := 77 }

/-- An armed state over `wPrefs`. -/
def wArmed : FCState := { wInit with flightEnabled := 1 }

/-- An automatic-mode armed state (for the altitude-hold witness). -/
def wAuto : FCState := { wArmed with flightMode := FlightMode_Automatic }

/-- A serial-side state in sensor-test mode with a live XBee pulse timer. -/
def wDbg : DebugState :=
  { mode := MODE_SensorTest, nudgeMotor := -1, usbPulse := 0, xbeePulse := 500,
    prefs := wPrefs }

/-- A serial-side state with no display mode active. -/
def wDbgNone : DebugState := { wDbg with mode := MODE_None, xbeePulse := 0 }

/-! ## Theorems -/

/-- Helper: `clamp v mn mx` lies in `[mn, mx]` whenever `mn ≤ mx`. -/
theorem clamp_mem (v mn mx : Int) (h : mn ≤ mx) :
    mn ≤ clamp v mn mx ∧ clamp v mn mx ≤ mx := by
  unfold clamp; dsimp only; split <;> split <;> omega

/-- Helper: `i16` always lands in the 16-bit signed range. -/
theorem i16_range (x : Int) : -32768 ≤ i16 x ∧ i16 x ≤ 32767 := by
  unfold i16; omega

/-- Helper: `i16` is the identity on the 16-bit signed range. -/
theorem i16_eq_self (x : Int) (h1 : -32768 ≤ x) (h2 : x ≤ 32767) : i16 x = x := by
  unfold i16; omega

/-- C7: the X mixer stage is symmetric: with zero attitude outputs and
`ThroOut = 12000` all four motors are 12000 (for any `ThroMix`); and a pure
roll command of +1000 at `ThroMix = 64` raises FL and BL to 12500 and
lowers FR and BR to 11500. -/
theorem C7_x_mixer :
    (∀ tm : Int, mixMotors 12000 0 0 0 tm = ⟨12000, 12000, 12000, 12000⟩) ∧
    mixMotors 12000 0 1000 0 64 = ⟨12500, 11500, 11500, 12500⟩ := by
  constructor
  · intro tm
    simp [mixMotors, asr, Int.zero_fdiv]
  · decide

/-- C8: refuted on the source as written.  In `DoDebugModeOutput` the XBee
heartbeat branch decrements `UsbPulse` instead of `XBeePulse` (line 948),
so with `UsbPulse = 0` and `XBeePulse = 500` a tick leaves `XBeePulse` at
500 (the claim requires 499), drives `UsbPulse` to -1, and never resets the
display mode: the XBee telemetry stream is never silenced. -/
theorem C8_xbee_pulse_not_decremented :
    (debugPulseStep wDbg).xbeePulse = 500 ∧
    (debugPulseStep wDbg).usbPulse = -1 ∧
    (debugPulseStep wDbg).mode = MODE_SensorTest := by
  decide

/-- C6: on a non-calibration tick the flight mode is recomputed from the
gear channel (Assisted above +512, Manual below -512, else Automatic); on
a change of mode `IsHolding` is cleared, entering Manual resets the desired
orientation while any other entry resets only the desired yaw, and entering
Automatic captures `AltiEst` as the hold altitude; without a change the
block leaves the state untouched and issues no IMU reset. -/
theorem C6_mode_arbitration (r : Radio) (s : FCState) :
    (modeArbitrate r s).1.flightMode = selectFlightMode r.gear ∧
    selectFlightMode r.gear =
      (if r.gear > 512 then FlightMode_Assisted
       else if r.gear < -512 then FlightMode_Manual else FlightMode_Automatic) ∧
    (if selectFlightMode r.gear = s.flightMode then
       (modeArbitrate r s).1 = s ∧ (modeArbitrate r s).2 = []
     else
       (modeArbitrate r s).1.isHolding = 0 ∧
       (modeArbitrate r s).2 =
         (if selectFlightMode r.gear = FlightMode_Manual
          then [ImuAct.resetOrientation] else [ImuAct.resetYaw]) ∧
       (modeArbitrate r s).1.desiredAltitude =
         (if selectFlightMode r.gear = FlightMode_Automatic
          then s.altiEst else s.desiredAltitude)) := by
  unfold modeArbitrate selectFlightMode
  by_cases h : (if r.gear > 512 then FlightMode_Assisted
                else if r.gear < -512 then FlightMode_Manual else FlightMode_Automatic) = s.flightMode
  · simp [h]
  · by_cases h2 : (if r.gear > 512 then FlightMode_Assisted
                   else if r.gear < -512 then FlightMode_Manual
                   else FlightMode_Automatic) = FlightMode_Automatic
    · simp only [h2] at h ⊢
      simp only [FlightMode_Automatic, FlightMode_Manual] at h ⊢
      simp [h]
    · simp [h, h2]

/-- C9 counterexample: the color actually emitted on a tick is not a
function of `(FlightMode, FlightEnabled, IsHolding, LowBatt, counter)`
alone: two ticks from the very same state (hence identical values of all
five) but different stick inputs emit different colors, because the
arming-gesture branch of `UpdateFlightLoop` overwrites `LEDModeColor`
with half-intensity yellow. -/
theorem C9_emitted_color_not_pure :
    wInit.flightMode = wInit.flightMode ∧ wInit.flightEnabled = wInit.flightEnabled ∧
    wInit.isHolding = wInit.isHolding ∧ lowBattOf wPrefs wInit = lowBattOf wPrefs wInit ∧
    wInit.counter = wInit.counter ∧
    emittedLEDColor wPrefs wEnv wRadioCenter wInit ≠ emittedLEDColor wPrefs wEnv wRadioArm wInit := by
  refine ⟨rfl, rfl, rfl, rfl, rfl, ?_⟩
  decide

/-- C9 (amended): the color computed by `UpdateFlightLEDColor` is a pure
function of exactly `(FlightMode, FlightEnabled, IsHolding, LowBatt,
counter)`; the color actually emitted at the end of the tick may further be
overwritten by the arm/disarm/compass gesture branches and by the
battery-monitor startup delay. -/
theorem C9_led_selector_pure (p1 p2 : Prefs) (s1 s2 : FCState)
    (hfm : s1.flightMode = s2.flightMode)
    (hfe : s1.flightEnabled = s2.flightEnabled)
    (hih : s1.isHolding = s2.isHolding)
    (hlb : lowBattOf p1 s1 = lowBattOf p2 s2)
    (hc : s1.counter = s2.counter) :
    updateFlightLEDColorVal p1 s1 = updateFlightLEDColorVal p2 s2 := by
  unfold updateFlightLEDColorVal
  rw [hlb, hc, hfm, hih, hfe]

/-- C9 witness: two states differing in setpoints, battery voltage, motor
and smoothing fields but agreeing on the five selector inputs yield the
same `UpdateFlightLEDColor` result. -/
theorem C9_led_selector_pure_witness :
    wInit.flightMode = wInitB.flightMode ∧ wInit.flightEnabled = wInitB.flightEnabled ∧
    wInit.isHolding = wInitB.isHolding ∧ lowBattOf wPrefs wInit = lowBattOf wPrefs wInitB ∧
    wInit.counter = wInitB.counter ∧
    updateFlightLEDColorVal wPrefs wInit = updateFlightLEDColorVal wPrefs wInitB :=
  ⟨rfl, rfl, rfl, by decide, rfl,
   C9_led_selector_pure wPrefs wPrefs wInit wInitB rfl rfl rfl (by decide) rfl⟩

/-- C2: the preferences-upload command 0x19 is atomic: when the checksum
computed over the received record differs from its stored checksum field,
the in-memory preferences after the command are identical to before and the
error beep is the only emitted action; the record is replaced only when the
checksum matches. -/
theorem C2_prefs_upload_atomic (csum : Prefs → Int) (defaults : Prefs) (port : Nat)
    (uploaded : Prefs) (confirm : Nat) (loadOk : Bool) (s : DebugState) :
    (if csum uploaded = uploaded.checksum then
       (checkDebugInput csum defaults port 0x19 uploaded confirm loadOk s).1.prefs = uploaded
     else
       (checkDebugInput csum defaults port 0x19 uploaded confirm loadOk s).1.prefs = s.prefs ∧
       (checkDebugInput csum defaults port 0x19 uploaded confirm loadOk s).2 = [DbgAct.beep]) := by
  unfold checkDebugInput
  have h8 : ¬((25 : Nat) &&& 248 = 8) := by decide
  have h18 : ((25 : Nat) &&& 248) = 24 := by decide
  by_cases h : csum uploaded = uploaded.checksum <;>
    simp [h, h8, h18, MODE_MotorTest, MODE_SensorTest]

/-- C10: the sensor-calibration command bytes 0x10-0x15 act only in
`MODE_SensorTest`: in any other display mode the byte is consumed with no
state change and no action issued to the sensor cog (so gyro-drift and
accel-offset settings and the ChannelScale/ChannelCenter preferences are
all left unchanged). -/
theorem C10_sensor_cal_gated (csum : Prefs → Int) (defaults : Prefs) (port : Nat) (c : Nat)
    (uploaded : Prefs) (confirm : Nat) (loadOk : Bool) (s : DebugState)
    (hlo : 0x10 ≤ c) (hhi : c ≤ 0x15) (hm : s.mode ≠ MODE_SensorTest) :
    (checkDebugInput csum defaults port c uploaded confirm loadOk s).1 = s ∧
    (checkDebugInput csum defaults port c uploaded confirm loadOk s).2 = [] := by
  have e16 : ((16 : Nat) &&& 248) = 16 := by decide
  have e17 : ((17 : Nat) &&& 248) = 16 := by decide
  have e18' : ((18 : Nat) &&& 248) = 16 := by decide
  have e19 : ((19 : Nat) &&& 248) = 16 := by decide
  have e20 : ((20 : Nat) &&& 248) = 16 := by decide
  have e21 : ((21 : Nat) &&& 248) = 16 := by decide
  have hc : c = 16 ∨ c = 17 ∨ c = 18 ∨ c = 19 ∨ c = 20 ∨ c = 21 := by omega
  rcases hc with rfl | rfl | rfl | rfl | rfl | rfl <;>
    simp [checkDebugInput, hm, MODE_MotorTest, e16, e17, e18', e19, e20, e21]

/-- C10 witness: command 0x13 (reset channel scale/center) received while
the display mode is `MODE_None` leaves the serial-side state, including all
channel preferences, unchanged and issues no action. -/
theorem C10_sensor_cal_gated_witness :
    ((0x10 : Nat) ≤ 0x13 ∧ (0x13 : Nat) ≤ 0x15 ∧ wDbgNone.mode ≠ MODE_SensorTest) ∧
    (checkDebugInput (fun _ => 0) wPrefs 0 0x13 wPrefs 0 true wDbgNone).1 = wDbgNone ∧
    (checkDebugInput (fun _ => 0) wPrefs 0 0x13 wPrefs 0 true wDbgNone).2 = [] :=
  ⟨⟨by decide, by decide, by decide⟩,
   C10_sensor_cal_gated (fun _ => 0) wPrefs 0 0x13 wPrefs 0 true wDbgNone
     (by decide) (by decide) (by decide)⟩

/-- Helper: a PID update at zero error starting from a zero integral leaves
the integral at zero (needed for hold entry, where the setpoint is set to
the measured altitude on the same tick). -/
theorem pid_calc_integral_zero (pid : IntPID) (x : Int) (b : Bool)
    (hpi : 0 ≤ pid.piMax) (hmi : 0 ≤ pid.maxIntegral) (hz : pid.integral = 0) :
    ((IntPID.calculate pid x x b).pid).integral = 0 := by
  unfold IntPID.calculate clamp
  simp only [sub_self, hz]
  split_ifs <;> simp_all <;> omega

/-- C5: on an armed Automatic tick, a throttle outside the 100-unit
deadband drops altitude hold and commands
`DesiredAscentRate = (deadband-removed stick) * 6000 / (1024 - 100)`;
a throttle inside the deadband while not holding enters hold on that tick:
`IsHolding := 1`, `DesiredAltitude := AltiEst`, and the altitude PID's
integral accumulator ends the tick at zero.  The `AltPID` limit hypotheses
are its `Initialize()` values (lines 363-367), which are never changed. -/
theorem C5_auto_throttle (p : Prefs) (r : Radio) (doInt : Bool) (s : FCState)
    (hpi : s.altPID.piMax = 1000) (hmi : s.altPID.maxIntegral = 4000) :
    (if cabs r.thro > AltiThrottleDeadband then
       (autoBlock p r doInt s).st.isHolding = 0 ∧
       (autoBlock p r doInt s).st.desiredAscentRate =
         Int.tdiv ((if r.thro > 0 then r.thro - AltiThrottleDeadband
                    else r.thro + AltiThrottleDeadband) * 6000) (1024 - AltiThrottleDeadband)
     else if s.isHolding = 0 then
       (autoBlock p r doInt s).st.isHolding = 1 ∧
       (autoBlock p r doInt s).st.desiredAltitude = s.altiEst ∧
       (autoBlock p r doInt s).st.altPID.integral = 0
     else True) := by
  by_cases h1 : cabs r.thro > AltiThrottleDeadband
  · rw [if_pos h1]
    unfold autoBlock
    simp [h1]
  · rw [if_neg h1]
    by_cases h2 : s.isHolding = 0
    · rw [if_pos h2]
      refine ⟨by simp [autoBlock, h1, h2], by simp [autoBlock, h1, h2], ?_⟩
      have hgoal : (autoBlock p r doInt s).st.altPID =
          (IntPID.calculate (s.altPID.resetIntegralError) s.altiEst s.altiEst doInt).pid := by
        simp [autoBlock, h1, h2]
      rw [hgoal]
      refine pid_calc_integral_zero _ _ _ ?_ ?_ rfl
      · simp [IntPID.resetIntegralError, hpi]
      · simp [IntPID.resetIntegralError, hmi]
    · rw [if_neg h2]
      trivial

/-- C5 witness: centered throttle while armed in Automatic with hold off
enters hold on that tick: `IsHolding` becomes 1, `DesiredAltitude` takes the
current estimate, and the altitude PID integral is zero. -/
theorem C5_auto_throttle_witness :
    wAuto.altPID.piMax = 1000 ∧ wAuto.altPID.maxIntegral = 4000 ∧
    (autoBlock wPrefs wRadioCenter true wAuto).st.isHolding = 1 ∧
    (autoBlock wPrefs wRadioCenter true wAuto).st.desiredAltitude = wAuto.altiEst ∧
    (autoBlock wPrefs wRadioCenter true wAuto).st.altPID.integral = 0 := by
  have h := C5_auto_throttle wPrefs wRadioCenter true wAuto (by decide) (by decide)
  rw [if_neg (by decide), if_pos (by decide)] at h
  exact ⟨by decide, by decide, h⟩

/-- Helper: the armed control path never changes the arm flag. -/
theorem armedCompute_enabled (p : Prefs) (e : Env) (r : Radio) (s : FCState) :
    (armedCompute p e r s).flightEnabled = s.flightEnabled := by
  unfold armedCompute autoBlock
  split_ifs <;> simp

/-- Helper: after the armed control path every motor word is the clamp of
the mixer output into `[MinThrottleArmed, MaxThrottle]`, hence lies in that
interval whenever it is nonempty. -/
theorem armedCompute_motor_bounds (p : Prefs) (e : Env) (r : Radio) (s : FCState)
    (h : p.minThrottleArmed ≤ p.maxThrottle) :
    (p.minThrottleArmed ≤ (armedCompute p e r s).motorFL ∧
       (armedCompute p e r s).motorFL ≤ p.maxThrottle) ∧
    (p.minThrottleArmed ≤ (armedCompute p e r s).motorFR ∧
       (armedCompute p e r s).motorFR ≤ p.maxThrottle) ∧
    (p.minThrottleArmed ≤ (armedCompute p e r s).motorBR ∧
       (armedCompute p e r s).motorBR ≤ p.maxThrottle) ∧
    (p.minThrottleArmed ≤ (armedCompute p e r s).motorBL ∧
       (armedCompute p e r s).motorBL ≤ p.maxThrottle) := by
  unfold armedCompute clampMotors
  dsimp only
  exact ⟨clamp_mem _ _ _ h, clamp_mem _ _ _ h, clamp_mem _ _ _ h, clamp_mem _ _ _ h⟩

/-- Helper: on a tick that starts armed, `UpdateFlightLoop` either runs
`DisarmFlightMode` (disarm gesture held long enough) or runs the armed
control path on a state that is still armed. -/
theorem updateFlightLoop_armed_shape (p : Prefs) (e : Env) (r : Radio) (s : FCState)
    (harm : s.flightEnabled = 1) :
    (∃ s1, updateFlightLoop p e r s = disarmFlightMode p s1) ∨
    (∃ s1, s1.flightEnabled = 1 ∧ updateFlightLoop p e r s = armedCompute p e r s1) := by
  unfold updateFlightLoop
  dsimp only
  rw [if_neg (by simp [updateFlightLEDColorS, harm])]
  by_cases hg : disarmGesture r
  · rw [if_pos hg]
    by_cases hd : i16 ((updateFlightLEDColorS p s).flightEnableStep + 1) ≥ p.disarmDelay
    · rw [if_pos hd]
      exact Or.inl ⟨_, rfl⟩
    · rw [if_neg hd]
      exact Or.inr ⟨_, by simp [updateFlightLEDColorS, harm], rfl⟩
  · rw [if_neg hg]
    exact Or.inr ⟨_, by simp [updateFlightLEDColorS, harm], rfl⟩

/-- C1: while armed, every tick of `UpdateFlightLoop` that keeps the
controller armed leaves all four motor outputs inside
`[MinThrottleArmed, MaxThrottle]` (the final clamp); on the disarm
transition, and at startup, all four motor outputs are set to
`MinThrottle`. -/
theorem C1_motor_bounds (p : Prefs) (e : Env) (r : Radio) (s : FCState) (a : Int)
    (harm : s.flightEnabled = 1) (hth : p.minThrottleArmed ≤ p.maxThrottle) :
    ((initState p a).motorFL = p.minThrottle ∧ (initState p a).motorFR = p.minThrottle ∧
       (initState p a).motorBR = p.minThrottle ∧ (initState p a).motorBL = p.minThrottle) ∧
    (if (updateFlightLoop p e r s).flightEnabled = 1 then
       (p.minThrottleArmed ≤ (updateFlightLoop p e r s).motorFL ∧
          (updateFlightLoop p e r s).motorFL ≤ p.maxThrottle) ∧
       (p.minThrottleArmed ≤ (updateFlightLoop p e r s).motorFR ∧
          (updateFlightLoop p e r s).motorFR ≤ p.maxThrottle) ∧
       (p.minThrottleArmed ≤ (updateFlightLoop p e r s).motorBR ∧
          (updateFlightLoop p e r s).motorBR ≤ p.maxThrottle) ∧
       (p.minThrottleArmed ≤ (updateFlightLoop p e r s).motorBL ∧
          (updateFlightLoop p e r s).motorBL ≤ p.maxThrottle)
     else
       (updateFlightLoop p e r s).motorFL = p.minThrottle ∧
       (updateFlightLoop p e r s).motorFR = p.minThrottle ∧
       (updateFlightLoop p e r s).motorBR = p.minThrottle ∧
       (updateFlightLoop p e r s).motorBL = p.minThrottle) := by
  refine ⟨⟨rfl, rfl, rfl, rfl⟩, ?_⟩
  rcases updateFlightLoop_armed_shape p e r s harm with ⟨s1, hEq⟩ | ⟨s1, hs1, hEq⟩
  · rw [hEq, if_neg (by simp [disarmFlightMode])]
    simp [disarmFlightMode]
  · rw [hEq, if_pos (by rw [armedCompute_enabled]; exact hs1)]
    exact armedCompute_motor_bounds p e r s1 hth

/-- C1 witness: an armed tick with centered sticks over the sample
preferences keeps the controller armed and yields motor outputs (12000)
inside `[8500, 16000]`; at startup the motors hold `MinThrottle = 8000`. -/
theorem C1_motor_bounds_witness :
    (wArmed.flightEnabled = 1 ∧ wPrefs.minThrottleArmed ≤ wPrefs.maxThrottle) ∧
    (initState wPrefs 0).motorFL = wPrefs.minThrottle ∧
    (updateFlightLoop wPrefs wEnv wRadioCenter wArmed).flightEnabled = 1 ∧
    wPrefs.minThrottleArmed ≤ (updateFlightLoop wPrefs wEnv wRadioCenter wArmed).motorFL ∧
    (updateFlightLoop wPrefs wEnv wRadioCenter wArmed).motorFL ≤ wPrefs.maxThrottle ∧
    wPrefs.minThrottleArmed ≤ (updateFlightLoop wPrefs wEnv wRadioCenter wArmed).motorBL ∧
    (updateFlightLoop wPrefs wEnv wRadioCenter wArmed).motorBL ≤ wPrefs.maxThrottle := by
  have h := C1_motor_bounds wPrefs wEnv wRadioCenter wArmed 0 rfl (by decide)
  have he : (updateFlightLoop wPrefs wEnv wRadioCenter wArmed).flightEnabled = 1 := by decide
  rw [if_pos he] at h
  exact ⟨⟨rfl, by decide⟩, h.1.1, he, h.2.1.1, h.2.1.2, h.2.2.2.2.1, h.2.2.2.2.2⟩

/-- Helper: the per-window variance is nonnegative (`maxVar` starts at 0
and only grows by `max` with absolute values). -/
theorem gyroVar_nonneg (samples : Nat → Nat → GyroSample) (i : Nat) :
    0 ≤ gyroVar samples i := by
  unfold gyroVar gyroIter
  dsimp only
  calc (0 : Int) ≤ max 0 (cabs (axisVar (axisStats fun k => (samples i k).x))) := le_max_left _ _
    _ ≤ _ := le_trans (le_max_left _ _) (le_max_left _ _)

/-- Helper: invariant-carrying specification of the `FindGyroZero` loop.
From a partial run that has processed iterations `0..tc-1` (or nothing,
with the initial `bestvar = -1`), the loop finishes with between `MinTries`
and `MaxTries` total iterations, stops only when the best variance is at
most 2 or `MaxTries` is reached, and returns the means and variance of a
minimal-variance processed window. -/
theorem fgzAux_spec (samples : Nat → Nat → GyroSample) :
    ∀ fuel tc best bestvar, fuel + tc = MaxTries →
      ((tc = 0 ∧ bestvar = -1) ∨
        (1 ≤ tc ∧ ∃ i, i < tc ∧ best = gyroMean samples i ∧ bestvar = gyroVar samples i ∧
          ∀ j, j < tc → gyroVar samples i ≤ gyroVar samples j)) →
      MinTries ≤ (fgzAux samples fuel tc best bestvar).tries ∧
      (fgzAux samples fuel tc best bestvar).tries ≤ MaxTries ∧
      ((fgzAux samples fuel tc best bestvar).bestVar ≤ 2 ∨
        (fgzAux samples fuel tc best bestvar).tries = MaxTries) ∧
      ∃ i, i < (fgzAux samples fuel tc best bestvar).tries ∧
        (fgzAux samples fuel tc best bestvar).best = gyroMean samples i ∧
        (fgzAux samples fuel tc best bestvar).bestVar = gyroVar samples i ∧
        ∀ j, j < (fgzAux samples fuel tc best bestvar).tries →
          gyroVar samples i ≤ gyroVar samples j := by
  intro fuel
  induction fuel with
  | zero =>
    intro tc best bestvar hf hinv
    have htc : tc = MaxTries := by omega
    rcases hinv with ⟨h0, _⟩ | ⟨h1, i, hi, hb, hv, hmin⟩
    · exfalso
      simp only [MaxTries] at htc
      omega
    · subst htc
      exact ⟨(by decide : MinTries ≤ MaxTries), le_refl _, Or.inr rfl, i, hi, hb, hv, hmin⟩
  | succ fuel ih =>
    intro tc best bestvar hf hinv
    simp only [fgzAux]
    have hvar : (gyroIter (samples tc)).2 = gyroVar samples tc := rfl
    by_cases hk : bestvar = -1 ∨ (gyroIter (samples tc)).2 < bestvar
    · rw [if_pos hk, if_pos hk]
      have hinv' : 1 ≤ tc + 1 ∧ ∃ i, i < tc + 1 ∧
          (gyroIter (samples tc)).1 = gyroMean samples i ∧
          (gyroIter (samples tc)).2 = gyroVar samples i ∧
          ∀ j, j < tc + 1 → gyroVar samples i ≤ gyroVar samples j := by
        refine ⟨Nat.le_add_left 1 tc, tc, Nat.lt_succ_self tc, rfl, rfl, ?_⟩
        intro j hj
        rcases hinv with ⟨h0, _⟩ | ⟨h1, i, hi, hb, hv, hmin⟩
        · subst h0
          have hj0 : j = 0 := by omega
          subst hj0
          exact le_refl _
        · rcases Nat.lt_succ_iff_lt_or_eq.mp hj with hj' | hj'
          · rcases hk with hk1 | hk2
            · exfalso
              have hnn := gyroVar_nonneg samples i
              rw [hv] at hk1
              omega
            · rw [hvar] at hk2
              rw [hv] at hk2
              exact le_trans (le_of_lt hk2) (hmin j hj')
          · subst hj'
            exact le_refl _
      by_cases hl : tc + 1 < MaxTries ∧ ((gyroIter (samples tc)).2 > 2 ∨ tc + 1 < MinTries)
      · rw [if_pos hl]
        exact ih (tc + 1) _ _ (by omega) (Or.inr hinv')
      · rw [if_neg hl]
        simp only [MaxTries, MinTries] at hf hl
        refine ⟨?_, ?_, ?_, hinv'.2⟩
        · show 2 ≤ tc + 1
          omega
        · show tc + 1 ≤ 64
          omega
        · by_cases h64 : tc + 1 = 64
          · exact Or.inr h64
          · left
            show (gyroIter (samples tc)).2 ≤ 2
            omega
    · rw [if_neg hk, if_neg hk]
      rcases hinv with ⟨h0, hbv⟩ | ⟨h1, i, hi, hb, hv, hmin⟩
      · exact absurd (Or.inl hbv) hk
      · have hk2 : ¬ (gyroIter (samples tc)).2 < bestvar := fun h => hk (Or.inr h)
        have hinv' : 1 ≤ tc + 1 ∧ ∃ i', i' < tc + 1 ∧ best = gyroMean samples i' ∧
            bestvar = gyroVar samples i' ∧
            ∀ j, j < tc + 1 → gyroVar samples i' ≤ gyroVar samples j := by
          refine ⟨Nat.le_add_left 1 tc, i, Nat.lt_succ_of_lt hi, hb, hv, ?_⟩
          intro j hj
          rcases Nat.lt_succ_iff_lt_or_eq.mp hj with hj' | hj'
          · exact hmin j hj'
          · subst hj'
            rw [hvar] at hk2
            rw [hv] at hk2
            omega
        by_cases hl : tc + 1 < MaxTries ∧ (bestvar > 2 ∨ tc + 1 < MinTries)
        · rw [if_pos hl]
          exact ih (tc + 1) best bestvar (by omega) (Or.inr hinv')
        · rw [if_neg hl]
          simp only [MaxTries, MinTries] at hf hl
          refine ⟨?_, ?_, ?_, hinv'.2⟩
          · show 2 ≤ tc + 1
            omega
          · show tc + 1 ≤ 64
            omega
          · by_cases h64 : tc + 1 = 64
            · exact Or.inr h64
            · left
              show bestvar ≤ 2
              omega

/-- C3: `FindGyroZero` runs its sampling loop at least `MinTries = 2` and
at most `MaxTries = 64` iterations; on exit either the best variance is at
most 2 or the iteration count equals `MaxTries`; and it publishes as gyro
zeros the per-axis 64-sample means of a lowest-variance iteration
(variance being max over the three axes of `|(min+max)/2 - mean|`). -/
theorem C3_find_gyro_zero (samples : Nat → Nat → GyroSample) :
    MinTries ≤ (findGyroZero samples).tries ∧
    (findGyroZero samples).tries ≤ MaxTries ∧
    ((findGyroZero samples).bestVar ≤ 2 ∨ (findGyroZero samples).tries = MaxTries) ∧
    ∃ i, i < (findGyroZero samples).tries ∧
      (findGyroZero samples).best = gyroMean samples i ∧
      (findGyroZero samples).bestVar = gyroVar samples i ∧
      ∀ j, j < (findGyroZero samples).tries → gyroVar samples i ≤ gyroVar samples j :=
  fgzAux_spec samples MaxTries 0 (0, 0, 0) (-1) rfl (Or.inl ⟨rfl, rfl⟩)

/-- Helper: behaviour of a disarmed `UpdateFlightLoop` tick.  Under the
arming gesture the hold counter advances to `i16(step+1)` and the
controller arms exactly when that reaches `ArmDelay`; on any tick without
the full arming gesture the hold counter is reset to 0 and the controller
stays disarmed. -/
theorem uFL_disarmed (p : Prefs) (e : Env) (r : Radio) (s : FCState)
    (h0 : s.flightEnabled = 0) :
    (armGesture r →
       (p.armDelay ≤ i16 (s.flightEnableStep + 1) →
          (updateFlightLoop p e r s).flightEnabled = 1 ∧
          (updateFlightLoop p e r s).flightEnableStep = 0) ∧
       (¬ p.armDelay ≤ i16 (s.flightEnableStep + 1) →
          (updateFlightLoop p e r s).flightEnabled = 0 ∧
          (updateFlightLoop p e r s).flightEnableStep = i16 (s.flightEnableStep + 1))) ∧
    (¬ armGesture r →
       (updateFlightLoop p e r s).flightEnabled = 0 ∧
       (updateFlightLoop p e r s).flightEnableStep = 0) := by
  have hled : (updateFlightLEDColorS p s).flightEnabled = 0 := h0
  constructor
  · intro hg
    obtain ⟨g1, g2, g3, g4⟩ := hg
    have hc1 : r.thro < -750 ∧ r.elev < -750 := ⟨g1, g2⟩
    have hc2 : r.rudd > 750 ∧ r.aile < -750 := ⟨g3, g4⟩
    constructor
    · intro hdel
      unfold updateFlightLoop
      dsimp only
      rw [if_pos hled, if_pos hc1, if_pos hc2,
        if_pos (show i16 ((updateFlightLEDColorS p s).flightEnableStep + 1) ≥ p.armDelay from hdel)]
      exact ⟨rfl, rfl⟩
    · intro hdel
      unfold updateFlightLoop
      dsimp only
      rw [if_pos hled, if_pos hc1, if_pos hc2,
        if_neg (show ¬ i16 ((updateFlightLEDColorS p s).flightEnableStep + 1) ≥ p.armDelay from hdel)]
      exact ⟨hled, rfl⟩
  · intro hng
    unfold updateFlightLoop
    dsimp only
    rw [if_pos hled]
    by_cases hc1 : r.thro < -750 ∧ r.elev < -750
    · rw [if_pos hc1]
      have hc2 : ¬(r.rudd > 750 ∧ r.aile < -750) := fun hc2 =>
        hng ⟨hc1.1, hc1.2, hc2.1, hc2.2⟩
      rw [if_neg hc2]
      by_cases hc3 : r.rudd > 750 ∧ r.aile > 750
      · rw [if_pos hc3]
        exact ⟨hled, rfl⟩
      · rw [if_neg hc3]
        exact ⟨hled, rfl⟩
    · rw [if_neg hc1]
      exact ⟨hled, rfl⟩

/-- Helper: unrolling one tick of an `flRun` trace. -/
theorem flRun_take_succ (p : Prefs) (s0 : FCState) (ers : List (Env × Radio)) (j : Nat)
    (h : j < ers.length) :
    flRun p s0 (ers.take (j + 1)) =
      updateFlightLoop p (ers.get ⟨j, h⟩).1 (ers.get ⟨j, h⟩).2 (flRun p s0 (ers.take j)) := by
  unfold flRun
  rw [List.take_succ, List.foldl_append]
  simp [List.getElem?_eq_getElem h]

/-- Helper: `getD` agrees with `get` below the length. -/
theorem getD_eq_get (ers : List (Env × Radio)) (j : Nat) (h : j < ers.length) :
    ers.getD j default = ers.get ⟨j, h⟩ := by
  simp [List.getD_eq_getElem?_getD, List.getElem?_eq_getElem h]

/-- Helper: along a disarmed prefix of a trace started with a zero hold
counter, `FlightEnableStep` stays in 16-bit range, counts at most the ticks
seen so far, and every one of the last `FlightEnableStep` inputs satisfied
the arming gesture. -/
theorem flRun_gesture_invariant (p : Prefs) (ers : List (Env × Radio)) (s0 : FCState)
    (hs0 : s0.flightEnableStep = 0) :
    ∀ i, i ≤ ers.length →
      (∀ j, j ≤ i → (flRun p s0 (ers.take j)).flightEnabled = 0) →
      -32768 ≤ (flRun p s0 (ers.take i)).flightEnableStep ∧
      (flRun p s0 (ers.take i)).flightEnableStep ≤ 32767 ∧
      (flRun p s0 (ers.take i)).flightEnableStep.toNat ≤ i ∧
      ∀ k, k < (flRun p s0 (ers.take i)).flightEnableStep.toNat →
        armGesture (ers.getD (i - 1 - k) default).2 := by
  intro i
  induction i with
  | zero =>
    intro _ _
    simp only [List.take_zero]
    unfold flRun
    simp only [List.foldl_nil, hs0]
    refine ⟨by omega, by omega, by omega, ?_⟩
    intro k hk
    omega
  | succ i ih =>
    intro hlen hdis
    have hlen' : i ≤ ers.length := by omega
    have hdis' : ∀ j, j ≤ i → (flRun p s0 (ers.take j)).flightEnabled = 0 := by
      intro j hj
      exact hdis j (by omega)
    obtain ⟨hr1, hr2, hcnt, hgest⟩ := ih hlen' hdis'
    have hi : i < ers.length := by omega
    have hstep := flRun_take_succ p s0 ers i hi
    have hprev : (flRun p s0 (ers.take i)).flightEnabled = 0 := hdis' i (le_refl i)
    have hcur : (flRun p s0 (ers.take (i + 1))).flightEnabled = 0 := hdis (i + 1) (le_refl _)
    obtain ⟨hG, hNG⟩ := uFL_disarmed p (ers.get ⟨i, hi⟩).1 (ers.get ⟨i, hi⟩).2
      (flRun p s0 (ers.take i)) hprev
    by_cases hg : armGesture (ers.get ⟨i, hi⟩).2
    · obtain ⟨hArm, hNoArm⟩ := hG hg
      by_cases hdel : p.armDelay ≤ i16 ((flRun p s0 (ers.take i)).flightEnableStep + 1)
      · exfalso
        have := (hArm hdel).1
        rw [← hstep] at this
        omega
      · obtain ⟨_, hstep'⟩ := hNoArm hdel
        rw [← hstep] at hstep'
        rw [hstep']
        have hrange := i16_range ((flRun p s0 (ers.take i)).flightEnableStep + 1)
        refine ⟨hrange.1, hrange.2, ?_, ?_⟩
        · by_cases hmax : (flRun p s0 (ers.take i)).flightEnableStep = 32767
          · rw [hmax]
            have : i16 (32767 + 1) = -32768 := by decide
            rw [this]
            omega
          · have heq : i16 ((flRun p s0 (ers.take i)).flightEnableStep + 1) =
                (flRun p s0 (ers.take i)).flightEnableStep + 1 :=
              i16_eq_self _ (by omega) (by omega)
            rw [heq]
            omega
        · intro k hk
          by_cases hmax : (flRun p s0 (ers.take i)).flightEnableStep = 32767
          · exfalso
            rw [hmax] at hk
            have : i16 (32767 + 1) = -32768 := by decide
            rw [this] at hk
            omega
          · have heq : i16 ((flRun p s0 (ers.take i)).flightEnableStep + 1) =
                (flRun p s0 (ers.take i)).flightEnableStep + 1 :=
              i16_eq_self _ (by omega) (by omega)
            rw [heq] at hk
            rcases Nat.eq_zero_or_pos k with hk0 | hkpos
            · subst hk0
              have hidx : i + 1 - 1 - 0 = i := by omega
              rw [hidx, getD_eq_get ers i hi]
              exact hg
            · have hk' : k - 1 < (flRun p s0 (ers.take i)).flightEnableStep.toNat := by omega
              have := hgest (k - 1) hk'
              have hidx : i - 1 - (k - 1) = i + 1 - 1 - k := by omega
              rw [hidx] at this
              exact this
    · obtain ⟨_, hstep'⟩ := hNG hg
      rw [← hstep] at hstep'
      rw [hstep']
      refine ⟨by omega, by omega, by omega, ?_⟩
      intro k hk
      omega

/-- C4: while disarmed, the controller arms only after the arming gesture
(`Thro < -750 ∧ Elev < -750 ∧ Rudd > 750 ∧ Aile < -750`) has held for
`ArmDelay` consecutive ticks: for any `UpdateFlightLoop` trace that starts
disarmed with a zero hold counter and first becomes armed at tick `n`, the
trace is at least `ArmDelay` ticks long, and each of the last `ArmDelay`
inputs satisfied the gesture (any gesture break resets the counter, as the
helper `uFL_disarmed` records). -/
theorem C4_arming_debounce (p : Prefs) (ers : List (Env × Radio)) (s0 : FCState) (n : Nat)
    (hd : 1 ≤ p.armDelay)
    (h00 : s0.flightEnabled = 0) (hs0 : s0.flightEnableStep = 0)
    (hn : n ≤ ers.length)
    (hdis : ∀ i, i < n → (flRun p s0 (ers.take i)).flightEnabled = 0)
    (harm : (flRun p s0 (ers.take n)).flightEnabled = 1) :
    p.armDelay.toNat ≤ n ∧
    ∀ k, k < p.armDelay.toNat → armGesture (ers.getD (n - 1 - k) default).2 := by
  rcases Nat.eq_zero_or_pos n with hn0 | hnpos
  · exfalso
    subst hn0
    simp only [List.take_zero] at harm
    unfold flRun at harm
    simp only [List.foldl_nil] at harm
    omega
  obtain ⟨m, rfl⟩ : ∃ m, n = m + 1 := ⟨n - 1, by omega⟩
  have hm : m < ers.length := by omega
  have hdis' : ∀ j, j ≤ m → (flRun p s0 (ers.take j)).flightEnabled = 0 := by
    intro j hj
    exact hdis j (by omega)
  obtain ⟨hr1, hr2, hcnt, hgest⟩ :=
    flRun_gesture_invariant p ers s0 hs0 m (by omega) hdis'
  have hstep := flRun_take_succ p s0 ers m hm
  have hprev : (flRun p s0 (ers.take m)).flightEnabled = 0 := hdis' m (le_refl m)
  obtain ⟨hG, hNG⟩ := uFL_disarmed p (ers.get ⟨m, hm⟩).1 (ers.get ⟨m, hm⟩).2
    (flRun p s0 (ers.take m)) hprev
  by_cases hg : armGesture (ers.get ⟨m, hm⟩).2
  · obtain ⟨hArm, hNoArm⟩ := hG hg
    by_cases hdel : p.armDelay ≤ i16 ((flRun p s0 (ers.take m)).flightEnableStep + 1)
    · -- the arming tick: ArmDelay ≤ i16(step+1) ≤ step+1
      have hmax : (flRun p s0 (ers.take m)).flightEnableStep ≠ 32767 := by
        intro hmax
        rw [hmax] at hdel
        have : i16 (32767 + 1) = -32768 := by decide
        rw [this] at hdel
        omega
      have heq : i16 ((flRun p s0 (ers.take m)).flightEnableStep + 1) =
          (flRun p s0 (ers.take m)).flightEnableStep + 1 :=
        i16_eq_self _ (by omega) (by omega)
      rw [heq] at hdel
      constructor
      · omega
      · intro k hk
        rcases Nat.eq_zero_or_pos k with hk0 | hkpos
        · subst hk0
          have hidx : m + 1 - 1 - 0 = m := by omega
          rw [hidx, getD_eq_get ers m hm]
          exact hg
        · have hk' : k - 1 < (flRun p s0 (ers.take m)).flightEnableStep.toNat := by omega
          have := hgest (k - 1) hk'
          have hidx : m - 1 - (k - 1) = m + 1 - 1 - k := by omega
          rw [hidx] at this
          exact this
    · exfalso
      obtain ⟨hoff, _⟩ := hNoArm hdel
      rw [← hstep] at hoff
      omega
  · exfalso
    obtain ⟨hoff, _⟩ := hNG hg
    rw [← hstep] at hoff
    omega

/-- C4 witness: with `ArmDelay = 2`, holding the arming gesture for exactly
two ticks from the initial state arms the controller, and both of the last
two inputs satisfied the gesture. -/
theorem C4_arming_debounce_witness :
    (1 ≤ wPrefs.armDelay ∧ wInit.flightEnabled = 0 ∧ wInit.flightEnableStep = 0 ∧
       (2 : Nat) ≤ ([(wEnv, wRadioArm), (wEnv, wRadioArm)] : List (Env × Radio)).length ∧
       (∀ i, i < 2 →
         (flRun wPrefs wInit
           (([(wEnv, wRadioArm), (wEnv, wRadioArm)] : List (Env × Radio)).take i)).flightEnabled = 0) ∧
       (flRun wPrefs wInit
         (([(wEnv, wRadioArm), (wEnv, wRadioArm)] : List (Env × Radio)).take 2)).flightEnabled = 1) ∧
    wPrefs.armDelay.toNat ≤ 2 ∧
    ∀ k, k < wPrefs.armDelay.toNat →
      armGesture (([(wEnv, wRadioArm), (wEnv, wRadioArm)] : List (Env × Radio)).getD
        (2 - 1 - k) default).2 := by
  refine ⟨⟨by decide, rfl, rfl, by decide, by decide, by decide⟩, ?_⟩
  exact C4_arming_debounce wPrefs [(wEnv, wRadioArm), (wEnv, wRadioArm)] wInit 2
    (by decide) rfl rfl (by decide) (by decide) (by decide)
